import Mathlib

/-!
Verification development for the Task-Manager repository.

The definitions below are a shallow embedding of the TypeScript source:

* `src/types/index.ts`            — the data model (Task, Project, DropResult, ...)
* `src/components/TaskBoard.tsx`  — board organisation and the drag-end reconciliation
* `src/hooks/use-tasks.ts`        — the optimistic-update mutation lifecycle
* `src/components/providers/query-provider.tsx` — the client retry policy
* `src/app/api/projects/[id]/route.ts` — the task/project HTTP endpoints
* `src/components/AnalyticsCharts.tsx` — the analytics aggregator

JS `Date` values are modelled as natural-number epoch milliseconds, JS
numbers used as ranks/counters as `Nat`, fractional JS numbers as `ℚ`.
Fallible steps return `Except`/`Option`.
-/

namespace TaskMgr

/-- Task status enum, `src/types/index.ts` line 53. -/
inductive TaskStatus
  | TODO
  | IN_PROGRESS
  | REVIEW
  | DONE
deriving DecidableEq, Repr

/-- Task priority enum, `src/types/index.ts` line 54. -/
inductive TaskPriority
  | LOW
  | MEDIUM
  | HIGH
  | URGENT
deriving DecidableEq, Repr

/-- The `Task` entity, `src/types/index.ts` lines 5-21.  Timestamps are epoch
milliseconds; `tags` holds the associated tag ids (standing in for the
`TaskTag` join records, whose circular `task` back-reference is dropped);
`order` is a non-negative integer (the API schema enforces
`z.number().int().min(0)`). -/
structure Task where
  id : String
  title : String
  description : Option String := none
  status : TaskStatus
  priority : TaskPriority
  deadline : Option Nat := none
  order : Nat
  projectId : String
  userId : String
  tags : List String := []
  createdAt : Nat := 0
  updatedAt : Nat := 0
  completedAt : Option Nat := none
  estimatedHours : Option ℚ := none
  actualHours : Option ℚ := none
deriving DecidableEq, Repr

/-- The `Project` entity, `src/types/index.ts` lines 23-34 (the owned task
collection is kept in the task store, not inline). -/
structure Project where
  id : String
  name : String
  description : Option String := none
  color : String := ""
  userId : String
  createdAt : Nat := 0
  updatedAt : Nat := 0
  deadline : Option Nat := none
deriving DecidableEq, Repr

/-- One drag endpoint of a `DropResult`, `src/types/index.ts` lines 159-168.
`droppableId` is a string in the source, but the only droppables rendered by
`TaskBoard` are the four status lanes, so it is modelled as `TaskStatus`. -/
structure DragLocation where
  droppableId : TaskStatus
  index : Nat
deriving DecidableEq, Repr

/-- The drag-and-drop event payload, `src/types/index.ts` lines 159-169. -/
structure DropResult where
  source : DragLocation
  destination : Option DragLocation
  draggableId : String
deriving DecidableEq, Repr

/-- The board state held by the `TaskBoard` component.  The component state is
always the four fixed columns of `BOARD_COLUMNS` (TODO, IN_PROGRESS, REVIEW,
DONE, in that order — `src/components/TaskBoard.tsx` lines 33-58), so the
state is modelled as one ordered task list per lane. -/
structure Board where
  todo : List Task
  inProgress : List Task
  review : List Task
  done : List Task
deriving DecidableEq, Repr

/-- The task list of the column whose id is the given status, the
`columns.find(col => col.id === ...)` access pattern of `handleDragEnd`. -/
def Board.lane (b : Board) : TaskStatus → List Task
  | .TODO => b.todo
  | .IN_PROGRESS => b.inProgress
  | .REVIEW => b.review
  | .DONE => b.done

/-- Replace the task list of one column, leaving the other three unchanged. -/
def Board.setLane (b : Board) : TaskStatus → List Task → Board
  | .TODO, ts => { b with todo := ts }
  | .IN_PROGRESS, ts => { b with inProgress := ts }
  | .REVIEW, ts => { b with review := ts }
  | .DONE, ts => { b with done := ts }

/-- `list.splice(i, 1)`: remove the element at index `i`; an out-of-range
index leaves the list unchanged, as in JS. -/
def spliceRemove {α : Type} : List α → Nat → List α
  | [], _ => []
  | _ :: xs, 0 => xs
  | x :: xs, n + 1 => x :: spliceRemove xs n

/-- `list.splice(i, 0, a)`: insert `a` at index `i`; an index past the end is
clamped to the end, as in JS. -/
def spliceInsert {α : Type} (a : α) : List α → Nat → List α
  | xs, 0 => a :: xs
  | [], _ + 1 => [a]
  | x :: xs, n + 1 => x :: spliceInsert a xs n

/-- `tasks.forEach((task, index) => { task.order = index })` starting at
position `n` (`src/components/TaskBoard.tsx` lines 129-131 use `n = 0`). -/
def renumberFrom (n : Nat) : List Task → List Task
  | [] => []
  | t :: ts => { t with order := n } :: renumberFrom (n + 1) ts

/-- Stable insertion used by `sortByOrder`: the new task goes after every
already-placed task with a strictly smaller `order` and before tasks with an
equal or larger `order` that appeared later in the input. -/
def insertByOrder (t : Task) : List Task → List Task
  | [] => [t]
  | u :: us => if u.order < t.order then u :: insertByOrder t us else t :: u :: us

/-- `tasks.sort((a, b) => a.order - b.order)`: a stable ascending sort on the
`order` field (`Array.prototype.sort` is stable). -/
def sortByOrder : List Task → List Task
  | [] => []
  | t :: ts => insertByOrder t (sortByOrder ts)

/-- The column-organisation effect of `TaskBoard`
(`src/components/TaskBoard.tsx` lines 79-87): each lane holds the tasks with
that status, sorted ascending by `order`. -/
def organizeColumns (tasks : List Task) : Board :=
  { todo := sortByOrder (tasks.filter (fun t => t.status == .TODO))
    inProgress := sortByOrder (tasks.filter (fun t => t.status == .IN_PROGRESS))
    review := sortByOrder (tasks.filter (fun t => t.status == .REVIEW))
    done := sortByOrder (tasks.filter (fun t => t.status == .DONE)) }

/-- The catch-block rollback of `handleDragEnd`
(`src/components/TaskBoard.tsx` lines 149-154): it recomputes the columns
from the `tasks` prop with the same filter-and-sort expression as the
organising effect. -/
def revertColumns (tasks : List Task) : Board :=
  { todo := sortByOrder (tasks.filter (fun t => t.status == .TODO))
    inProgress := sortByOrder (tasks.filter (fun t => t.status == .IN_PROGRESS))
    review := sortByOrder (tasks.filter (fun t => t.status == .REVIEW))
    done := sortByOrder (tasks.filter (fun t => t.status == .DONE)) }

/-- The board-reconciliation step of `handleDragEnd`
(`src/components/TaskBoard.tsx` lines 89-133), as a function from the old
column state and the drop event to the new column state:

* destination `null` → unchanged state (line 93);
* destination equal to source (same lane, same index) → unchanged (lines 96-101);
* otherwise the dragged task (found by id in the source lane, line 108) is
  removed from the source lane at the source index (line 118), a copy with the
  destination status and the destination index as `order` is inserted into the
  destination lane at the destination index (lines 121-126), and the
  destination lane is renumbered by position (lines 129-131).  When source and
  destination are the same lane, the insertion operates on the
  already-spliced list, exactly as the in-place JS `splice` calls do. -/
def handleDragEnd (b : Board) (result : DropResult) : Board :=
  match result.destination with
  | none => b
  | some destination =>
    if destination.droppableId = result.source.droppableId ∧
        destination.index = result.source.index then
      b
    else
      let sourceTasks := b.lane result.source.droppableId
      match sourceTasks.find? (fun t => t.id == result.draggableId) with
      | none => b
      | some draggedTask =>
        let updatedTask : Task :=
          { draggedTask with status := destination.droppableId, order := destination.index }
        if result.source.droppableId = destination.droppableId then
          b.setLane destination.droppableId
            (renumberFrom 0
              (spliceInsert updatedTask (spliceRemove sourceTasks result.source.index)
                destination.index))
        else
          (b.setLane result.source.droppableId
              (spliceRemove sourceTasks result.source.index)).setLane
            destination.droppableId
            (renumberFrom 0 (spliceInsert updatedTask (b.lane destination.droppableId)
              destination.index))

/-- A `Partial<Task>` value: every `Task` field, optionally present.  A
present field overrides the old value in the JS spread `{ ...task, ...updates }`.
For `Task` fields that are themselves optional, the outer `Option` is
presence in the update object and the inner one is the field value. -/
structure TaskUpdates where
  id : Option String := none
  title : Option String := none
  description : Option (Option String) := none
  status : Option TaskStatus := none
  priority : Option TaskPriority := none
  deadline : Option (Option Nat) := none
  order : Option Nat := none
  projectId : Option String := none
  userId : Option String := none
  tags : Option (List String) := none
  createdAt : Option Nat := none
  updatedAt : Option Nat := none
  completedAt : Option (Option Nat) := none
  estimatedHours : Option (Option ℚ) := none
  actualHours : Option (Option ℚ) := none
deriving DecidableEq, Repr

/-- The JS object spread `{ ...task, ...updates }` used by the optimistic
update in `useUpdateTask` (`src/hooks/use-tasks.ts` line 99). -/
def spreadUpdates (t : Task) (u : TaskUpdates) : Task :=
  { id := u.id.getD t.id
    title := u.title.getD t.title
    description := u.description.getD t.description
    status := u.status.getD t.status
    priority := u.priority.getD t.priority
    deadline := u.deadline.getD t.deadline
    order := u.order.getD t.order
    projectId := u.projectId.getD t.projectId
    userId := u.userId.getD t.userId
    tags := u.tags.getD t.tags
    createdAt := u.createdAt.getD t.createdAt
    updatedAt := u.updatedAt.getD t.updatedAt
    completedAt := u.completedAt.getD t.completedAt
    estimatedHours := u.estimatedHours.getD t.estimatedHours
    actualHours := u.actualHours.getD t.actualHours }

/-- The `onMutate` step of `useUpdateTask` (`src/hooks/use-tasks.ts` lines
90-104).  The cached `['tasks']` entry may be absent (`none`).  Returns the
new cache value and the snapshot stored in the mutation context as
`previousTasks`: the cache value read before the optimistic write.  The
optimistic write is `old?.map(task => task.id === taskId ? { ...task,
...updates } : task) || []`. -/
def useUpdateTask_onMutate (cache : Option (List Task)) (taskId : String)
    (updates : TaskUpdates) : Option (List Task) × Option (List Task) :=
  let previousTasks := cache
  let newCache : List Task :=
    match cache with
    | some old => old.map (fun t => if t.id == taskId then spreadUpdates t updates else t)
    | none => []
  (some newCache, previousTasks)

/-- The `onError` step of `useUpdateTask` (`src/hooks/use-tasks.ts` lines
105-111): if the context snapshot is present (in JS: truthy — an array,
including the empty array, is truthy; only an absent cache gives `undefined`)
the cache is set back to it, otherwise the cache is left as is. -/
def useUpdateTask_onError (cache : Option (List Task))
    (contextPreviousTasks : Option (List Task)) : Option (List Task) :=
  match contextPreviousTasks with
  | some prev => some prev
  | none => cache

/-- The cache state after a task-update mutation fails: the optimistic
`onMutate` write followed by the `onError` rollback. -/
def failedUpdateCache (cache : Option (List Task)) (taskId : String)
    (updates : TaskUpdates) : Option (List Task) :=
  let step := useUpdateTask_onMutate cache taskId updates
  useUpdateTask_onError step.1 step.2

/-- A JS `Error`-like value as seen by the retry predicates in
`query-provider.tsx`: the predicates read the `status` property, which a
plain `Error` does not carry (`none`). -/
structure JsError where
  message : String
  status : Option Nat := none
deriving DecidableEq, Repr

/-- The `Error` value thrown by the fetch helpers in `src/hooks/use-tasks.ts`
(lines 11-14, 36-39, 61-64) on a non-ok response:
`new Error(errorData.error || "HTTP status: statusText")`.  The `||` falls
through on an absent or empty `error` field (the empty string is falsy).  The
constructed `Error` has a `message` but no `status` property. -/
def fetchHelperError (bodyError : Option String) (status : Nat)
    (statusText : String) : JsError :=
  let httpMsg := "HTTP " ++ toString status ++ ": " ++ statusText
  { message :=
      match bodyError with
      | some e => if e.length = 0 then httpMsg else e
      | none => httpMsg
    status := none }

/-- The query (read) retry predicate of the client,
`src/components/providers/query-provider.tsx` lines 14-20. -/
def queriesRetry (failureCount : Nat) (error : JsError) : Bool :=
  if error.status = some 401 ∨ error.status = some 403 then false
  else failureCount < 3

/-- The mutation retry predicate of the client,
`src/components/providers/query-provider.tsx` lines 23-28. -/
def mutationsRetry (failureCount : Nat) (error : JsError) : Bool :=
  if error.status = some 401 ∨ error.status = some 403 then false
  else failureCount < 1

/-- The validated body of `PUT /api/tasks/[id]` (`updateTaskSchema` in
`src/app/api/projects/[id]/route.ts` lines 420-431).  The outer `Option` is
field presence; `deadline` is additionally nullable (`some none` is an
explicit `null`, clearing the deadline). -/
structure UpdateTaskPayload where
  title : Option String := none
  description : Option String := none
  status : Option TaskStatus := none
  priority : Option TaskPriority := none
  deadline : Option (Option Nat) := none
  order : Option Nat := none
  projectId : Option String := none
  tagIds : Option (List String) := none
  estimatedHours : Option ℚ := none
  actualHours : Option ℚ := none
deriving DecidableEq, Repr

/-- The `updateData` construction of `PUT /api/tasks/[id]`
(`src/app/api/projects/[id]/route.ts` lines 536-557) merged into the existing
task by `prisma.task.update`.  Each supplied field overrides the stored one;
the completion timestamp is touched only when a status is supplied: a
transition into DONE stamps the current time, a status other than DONE clears
it to null, and DONE-to-DONE leaves it alone (lines 541-549).  `updatedAt` is
the store-maintained `@updatedAt` column. -/
def applyTaskUpdate (now : Nat) (existingTask : Task) (v : UpdateTaskPayload) : Task :=
  { existingTask with
    title := v.title.getD existingTask.title
    description :=
      match v.description with
      | some s => some s
      | none => existingTask.description
    status := v.status.getD existingTask.status
    completedAt :=
      match v.status with
      | some s =>
        if s = .DONE ∧ existingTask.status ≠ .DONE then some now
        else if s ≠ .DONE then none
        else existingTask.completedAt
      | none => existingTask.completedAt
    priority := v.priority.getD existingTask.priority
    deadline := v.deadline.getD existingTask.deadline
    order := v.order.getD existingTask.order
    projectId := v.projectId.getD existingTask.projectId
    estimatedHours :=
      match v.estimatedHours with
      | some q => some q
      | none => existingTask.estimatedHours
    actualHours :=
      match v.actualHours with
      | some q => some q
      | none => existingTask.actualHours
    updatedAt := now }

/-- One element of the bulk-update array accepted by `PUT /api/tasks`
(`src/app/api/projects/[id]/route.ts` lines 378-391): an `{id, status,
order}` triple. -/
structure BulkTaskUpdate where
  id : String
  status : TaskStatus
  order : Nat
deriving DecidableEq, Repr

/-- The per-item `data` object of the bulk update (lines 385-389):
`{ status, order, ...(status === 'DONE' && { completedAt: new Date() }) }`.
The completion timestamp is stamped whenever the new status is DONE and left
untouched otherwise — there is no clearing branch. -/
def bulkUpdateData (now : Nat) (t : Task) (u : BulkTaskUpdate) : Task :=
  { t with
    status := u.status
    order := u.order
    completedAt := if u.status = .DONE then some now else t.completedAt
    updatedAt := now }

/-- The bulk endpoint applied to a task store: each `{id, status, order}`
update is applied independently to the task matching `{id, userId}` (lines
379-393; `Promise.all` over independent single-row updates is modelled as a
left fold). -/
def putTasksBulk (now : Nat) (db : List Task) (uid : String)
    (items : List BulkTaskUpdate) : List Task :=
  items.foldl
    (fun acc u =>
      acc.map (fun t => if t.id == u.id && t.userId == uid then bulkUpdateData now t u else t))
    db

/-- The response envelope `{success, data?, error?, message?}` of the
endpoints (`src/types/index.ts` lines 249-255) together with the HTTP status
code.  `success` is optional because the project-route 401 body carries only
`{error}`. -/
structure ApiResp (α : Type) where
  status : Nat
  success : Option Bool := none
  error : Option String := none
  message : Option String := none
  data : Option α := none
deriving DecidableEq, Repr

/-- `prisma.task.findFirst({ where: { id, userId } })`: the ownership-scoped
single-task lookup used by the task `[id]` route. -/
def findTaskOwned (db : List Task) (taskId userId : String) : Option Task :=
  db.find? (fun t => t.id == taskId && t.userId == userId)

/-- `prisma.project.findFirst({ where: { id, userId } })`. -/
def findProjectOwned (projects : List Project) (projectId userId : String) : Option Project :=
  projects.find? (fun p => p.id == projectId && p.userId == userId)

/-- `GET /api/projects/[id]` (`src/app/api/projects/[id]/route.ts` lines
7-58): 401 without a session; the ownership-scoped lookup returns the project
or a 404 `Project not found`. -/
def getProjectEndpoint (projects : List Project) (session : Option String)
    (projectId : String) : ApiResp Project :=
  match session with
  | none => { status := 401, error := some "Unauthorized" }
  | some uid =>
    match findProjectOwned projects projectId uid with
    | none => { status := 404, success := some false, error := some "Project not found" }
    | some project => { status := 200, success := some true, data := some project }

/-- `PUT /api/tasks/[id]` (`src/app/api/projects/[id]/route.ts` lines
487-615), modulo the tag-association replacement, which acts on the join
table outside this task store.  Returns the response and the new task store.
The ownership-scoped lookup gates the update with a 404; a supplied project
id different from the current one must also be owned, else 404. -/
def putTaskEndpoint (now : Nat) (db : List Task) (projects : List Project)
    (session : Option String) (taskId : String) (v : UpdateTaskPayload) :
    ApiResp Task × List Task :=
  match session with
  | none => ({ status := 401, success := some false, error := some "Unauthorized" }, db)
  | some uid =>
    match findTaskOwned db taskId uid with
    | none => ({ status := 404, success := some false, error := some "Task not found" }, db)
    | some existingTask =>
      let projectCheckFails : Bool :=
        match v.projectId with
        | some pid => pid != existingTask.projectId && (findProjectOwned projects pid uid).isNone
        | none => false
      if projectCheckFails then
        ({ status := 404, success := some false,
           error := some "Project not found or unauthorized" }, db)
      else
        let updatedTask := applyTaskUpdate now existingTask v
        ({ status := 200, success := some true, data := some updatedTask,
           message := some "Task updated successfully" },
         db.map (fun t => if t.id == taskId then updatedTask else t))

/-- `DELETE /api/tasks/[id]` (`src/app/api/projects/[id]/route.ts` lines
618-663): the ownership-scoped lookup gates the delete with a 404. -/
def deleteTaskEndpoint (db : List Task) (session : Option String)
    (taskId : String) : ApiResp Task × List Task :=
  match session with
  | none => ({ status := 401, success := some false, error := some "Unauthorized" }, db)
  | some uid =>
    match findTaskOwned db taskId uid with
    | none => ({ status := 404, success := some false, error := some "Task not found" }, db)
    | some _ =>
      ({ status := 200, success := some true, message := some "Task deleted successfully" },
       db.filter (fun t => t.id != taskId))

/-- The raw body of `POST /api/tasks` before validation.  `priority` is
`some p` when the body carries a valid enum value and `none` when the field
is missing or not one of the four values; `deadline` is a parsed valid
ISO-8601 timestamp when present (datetime-format failures are outside the
claims under proof). -/
structure CreateTaskBody where
  title : String
  description : Option String := none
  priority : Option TaskPriority := none
  deadline : Option Nat := none
  projectId : String
  tagIds : Option (List String) := none
  estimatedHours : Option ℚ := none
deriving DecidableEq, Repr

/-- The output of a successful `createTaskSchema.parse`. -/
structure ValidCreateTask where
  title : String
  description : Option String
  priority : TaskPriority
  deadline : Option Nat
  projectId : String
  tagIds : Option (List String)
  estimatedHours : Option ℚ
deriving DecidableEq, Repr

/-- `createTaskSchema.parse` (`src/app/api/projects/[id]/route.ts` lines
166-174).  Zod reports issues in the shape order of the schema — title,
description, priority, deadline, projectId, tagIds, estimatedHours — and the
route surfaces `error.errors[0]`, so validation is modelled as returning the
first offending field with its message: `z.string().min(1, ...)` fails on an
empty title, `.max(200)` fails above 200 characters with the default zod
message, the priority enum must be present and valid, the project id must be
non-empty and `estimatedHours` positive. -/
def validateCreateTask (b : CreateTaskBody) : Except (String × String) ValidCreateTask :=
  if b.title.length < 1 then Except.error ("title", "Title is required")
  else if b.title.length > 200 then
    Except.error ("title", "String must contain at most 200 character(s)")
  else
    match b.priority with
    | none => Except.error ("priority", "Required")
    | some p =>
      if b.projectId.length < 1 then Except.error ("projectId", "Project ID is required")
      else
        match b.estimatedHours with
        | some q =>
          if q ≤ 0 then Except.error ("estimatedHours", "Number must be greater than 0")
          else Except.ok ⟨b.title, b.description, p, b.deadline, b.projectId, b.tagIds,
            some q⟩
        | none => Except.ok ⟨b.title, b.description, p, b.deadline, b.projectId, b.tagIds, none⟩

/-- `POST /api/tasks` (`src/app/api/projects/[id]/route.ts` lines 267-362),
modulo the tag-association inserts.  `newId` stands for the store-generated
id.  A `ZodError` maps to a 400 whose `message` is `error.errors[0].message`
(lines 349-354); the project must be owned by the caller (404 otherwise); the
new task enters the TODO lane with order `(lastTask?.order || 0) + 1`, where
`lastTask` is the caller's TODO task with the largest order (lines 295-304). -/
def postTaskEndpoint (now : Nat) (newId : String) (db : List Task)
    (projects : List Project) (session : Option String) (b : CreateTaskBody) :
    ApiResp Task × List Task :=
  match session with
  | none => ({ status := 401, success := some false, error := some "Unauthorized" }, db)
  | some uid =>
    match validateCreateTask b with
    | Except.error e =>
      ({ status := 400, success := some false, error := some "Validation error",
         message := some e.2 }, db)
    | Except.ok v =>
      match findProjectOwned projects v.projectId uid with
      | none =>
        ({ status := 404, success := some false,
           error := some "Project not found or unauthorized" }, db)
      | some _ =>
        let todoOrders :=
          (db.filter (fun t => t.userId == uid && t.status == .TODO)).map (fun t => t.order)
        let nextOrder := todoOrders.foldl max 0 + 1
        let task : Task :=
          { id := newId, title := v.title, description := v.description,
            status := .TODO, priority := v.priority, deadline := v.deadline,
            order := nextOrder, projectId := v.projectId, userId := uid,
            createdAt := now, updatedAt := now, completedAt := none,
            estimatedHours := v.estimatedHours }
        ({ status := 201, success := some true, data := some task,
           message := some "Task created successfully" }, db ++ [task])

/-- The query parameters of `GET /api/tasks` (`src/app/api/projects/[id]/route.ts`
lines 194-200).  `page` and `limit` are the parsed numeric values when the
query string carries the parameter. -/
structure TaskListParams where
  projectId : Option String := none
  status : Option TaskStatus := none
  priority : Option TaskPriority := none
  page : Option Nat := none
  limit : Option Nat := none
  search : Option String := none
deriving DecidableEq, Repr

/-- Whether the character list `q` is a prefix of `s`. -/
def leadsWith : List Char → List Char → Bool
  | [], _ => true
  | _ :: _, [] => false
  | c :: cs, d :: ds => c == d && leadsWith cs ds

/-- Whether the character list `q` occurs contiguously inside `s`. -/
def containsChars (q : List Char) : List Char → Bool
  | [] => leadsWith q []
  | c :: rest => leadsWith q (c :: rest) || containsChars q rest

/-- `{ contains: search, mode: 'insensitive' }`: case-insensitive substring
match. -/
def containsInsensitive (s q : String) : Bool :=
  containsChars q.toLower.data s.toLower.data

/-- The `where` clause built by `GET /api/tasks` (lines 202-215): the caller's
own tasks, optionally narrowed by project, status, priority and a
case-insensitive title/description search. -/
def taskMatchesWhere (uid : String) (p : TaskListParams) (t : Task) : Bool :=
  t.userId == uid
  && (match p.projectId with | some pid => t.projectId == pid | none => true)
  && (match p.status with | some s => t.status == s | none => true)
  && (match p.priority with | some pr => t.priority == pr | none => true)
  && (match p.search with
      | some q =>
        containsInsensitive t.title q
        || (match t.description with | some d => containsInsensitive d q | none => false)
      | none => true)

/-- The string stored for a status value (the store keeps the enum as its
name, which is what `orderBy: { status: 'asc' }` compares). -/
def statusString : TaskStatus → String
  | .TODO => "TODO"
  | .IN_PROGRESS => "IN_PROGRESS"
  | .REVIEW => "REVIEW"
  | .DONE => "DONE"

/-- The strict comes-before relation of the listing sort
`orderBy: [{status: 'asc'}, {order: 'asc'}, {createdAt: 'desc'}]`
(lines 233-237). -/
def listingBefore (a b : Task) : Bool :=
  decide (statusString a.status < statusString b.status)
  || (statusString a.status == statusString b.status
      && (a.order < b.order || (a.order == b.order && a.createdAt > b.createdAt)))

/-- Stable insertion for the listing sort. -/
def insertListing (t : Task) : List Task → List Task
  | [] => [t]
  | u :: us => if listingBefore u t then u :: insertListing t us else t :: u :: us

/-- The listing sort: stable, by status ascending, then order ascending, then
creation time descending. -/
def sortListing : List Task → List Task
  | [] => []
  | t :: ts => insertListing t (sortListing ts)

/-- Pagination metadata of the task-list response (lines 248-253). -/
structure Pagination where
  total : Nat
  page : Nat
  limit : Nat
  totalPages : Nat
deriving DecidableEq, Repr

/-- The `GET /api/tasks` response: status, success flag, the page of tasks
and the pagination block. -/
structure TaskListResponse where
  status : Nat
  success : Bool
  tasks : List Task
  pagination : Option Pagination
deriving DecidableEq, Repr

/-- `GET /api/tasks` (`src/app/api/projects/[id]/route.ts` lines 184-264).
Absent `page`/`limit` parameters default to 1 and 50
(`parseInt(searchParams.get('page') || '1')`, line 198-199); the filtered,
sorted collection is windowed with `skip: (page - 1) * limit, take: limit`;
`totalPages` is `Math.ceil(total / limit)`, written in integer form (the
`limit` reaching it is positive on every modelled path). -/
def getTasksEndpoint (db : List Task) (session : Option String)
    (p : TaskListParams) : TaskListResponse :=
  match session with
  | none => { status := 401, success := false, tasks := [], pagination := none }
  | some uid =>
    let page := p.page.getD 1
    let limit := p.limit.getD 50
    let filtered := db.filter (taskMatchesWhere uid p)
    let sorted := sortListing filtered
    let tasks := (sorted.drop ((page - 1) * limit)).take limit
    let total := filtered.length
    { status := 200, success := true, tasks := tasks,
      pagination := some
        { total := total, page := page, limit := limit,
          totalPages := (total + limit - 1) / limit } }

/-- The analytics record computed by `AnalyticsCharts`
(`src/components/AnalyticsCharts.tsx` lines 54-91). -/
structure TaskAnalytics where
  totalTasks : Nat
  completedTasks : Nat
  pendingTasks : Nat
  overdueTasks : Nat
  completionRate : ℚ
  avgCompletionTime : ℚ
deriving DecidableEq, Repr

/-- The tasks entering the average-completion-time mean: status DONE with a
completion timestamp (`task.completedAt && task.createdAt`; a `createdAt`
Date is always truthy). -/
def completedWithDates (tasks : List Task) : List Task :=
  tasks.filter (fun t => t.status == .DONE && t.completedAt.isSome)

/-- The `analytics` memo of `AnalyticsCharts`
(`src/components/AnalyticsCharts.tsx` lines 54-91): counts, the completion
rate `(completed / total) * 100` guarded by `total > 0`, and the mean over
`Math.ceil((completedAt - createdAt) / 86400000)` guarded by a non-empty
filter — both guards returning 0 instead of dividing by zero. -/
def analyticsOf (now : Nat) (tasks : List Task) : TaskAnalytics :=
  let totalTasks := tasks.length
  let completedTasks := (tasks.filter (fun t => t.status == .DONE)).length
  let pendingTasks := totalTasks - completedTasks
  let overdueTasks :=
    (tasks.filter (fun t =>
      match t.deadline with
      | some d => decide (now > d) && t.status != .DONE
      | none => false)).length
  let completionRate : ℚ :=
    if totalTasks > 0 then ((completedTasks : ℚ) / (totalTasks : ℚ)) * 100 else 0
  let withDates := completedWithDates tasks
  let avgCompletionTime : ℚ :=
    if withDates.length > 0 then
      (withDates.foldl
        (fun acc t =>
          acc + ((Int.ceil (((t.completedAt.getD 0 : ℚ) - (t.createdAt : ℚ)) / 86400000) : ℤ) : ℚ))
        0) / (withDates.length : ℚ)
    else 0
  ⟨totalTasks, completedTasks, pendingTasks, overdueTasks, completionRate, avgCompletionTime⟩

theorem lane_setLane_same (b : Board) (l : TaskStatus) (ts : List Task) :
    (b.setLane l ts).lane l = ts := by
  cases l <;> rfl

theorem lane_setLane_ne (b : Board) (l l' : TaskStatus) (ts : List Task) (h : l ≠ l') :
    (b.setLane l' ts).lane l = b.lane l := by
  cases l <;> cases l' <;> first | rfl | exact absurd rfl h

theorem renumberFrom_length (n : Nat) (ts : List Task) :
    (renumberFrom n ts).length = ts.length := by
  induction ts generalizing n with
  | nil => rfl
  | cons t ts ih => simp [renumberFrom, ih]

theorem renumberFrom_get_order (n : Nat) (ts : List Task) (k : Nat)
    (hk2 : k < (renumberFrom n ts).length) :
    ((renumberFrom n ts).get ⟨k, hk2⟩).order = n + k := by
  induction ts generalizing n k with
  | nil => simp [renumberFrom] at hk2
  | cons t ts ih =>
    cases k with
    | zero => rfl
    | succ k =>
      have hk2' : k < (renumberFrom (n + 1) ts).length := by
        simpa [renumberFrom] using hk2
      exact (ih (n + 1) k hk2').trans (by omega)

theorem renumberFrom_get_id (n : Nat) (ts : List Task) (k : Nat) (hk : k < ts.length)
    (hk2 : k < (renumberFrom n ts).length) :
    ((renumberFrom n ts).get ⟨k, hk2⟩).id = (ts.get ⟨k, hk⟩).id := by
  induction ts generalizing n k with
  | nil => simp at hk
  | cons t ts ih =>
    cases k with
    | zero => rfl
    | succ k =>
      exact ih (n + 1) k (Nat.lt_of_succ_lt_succ hk) (by simpa [renumberFrom] using hk2)

theorem renumberFrom_get_status (n : Nat) (ts : List Task) (k : Nat) (hk : k < ts.length)
    (hk2 : k < (renumberFrom n ts).length) :
    ((renumberFrom n ts).get ⟨k, hk2⟩).status = (ts.get ⟨k, hk⟩).status := by
  induction ts generalizing n k with
  | nil => simp at hk
  | cons t ts ih =>
    cases k with
    | zero => rfl
    | succ k =>
      exact ih (n + 1) k (Nat.lt_of_succ_lt_succ hk) (by simpa [renumberFrom] using hk2)

theorem spliceInsert_length {α : Type} (a : α) (l : List α) (i : Nat) :
    (spliceInsert a l i).length = l.length + 1 := by
  induction l generalizing i with
  | nil => cases i <;> rfl
  | cons x xs ih =>
    cases i with
    | zero => rfl
    | succ i => simp [spliceInsert, ih]

theorem spliceInsert_get_self {α : Type} (a : α) (l : List α) (i : Nat) (hi : i ≤ l.length)
    (h : i < (spliceInsert a l i).length) :
    (spliceInsert a l i).get ⟨i, h⟩ = a := by
  induction l generalizing i with
  | nil =>
    have : i = 0 := Nat.le_zero.mp hi
    subst this
    rfl
  | cons x xs ih =>
    cases i with
    | zero => rfl
    | succ i =>
      have hi' : i ≤ xs.length := Nat.le_of_succ_le_succ hi
      have h' : i < (spliceInsert a xs i).length := by rw [spliceInsert_length]; omega
      simpa [spliceInsert, List.get] using ih i hi' h'

/-- Claim C3: a drag event with a null destination, or with a destination
equal to the source (same lane, same index), leaves the board reconciliation
a no-op: the column state — in particular every task status and order value —
is returned unchanged. -/
theorem handleDragEnd_noop (b : Board) (src : DragLocation) (tid : String)
    (dest : Option DragLocation) (h : dest = none ∨ dest = some src) :
    handleDragEnd b ⟨src, dest, tid⟩ = b := by
  rcases h with h | h <;> subst h
  · rfl
  · simp [handleDragEnd]

theorem handleDragEnd_noop_witness :
    handleDragEnd ⟨[], [], [], []⟩ ⟨⟨.TODO, 0⟩, some ⟨.TODO, 0⟩, "t"⟩ = ⟨[], [], [], []⟩ :=
  handleDragEnd_noop ⟨[], [], [], []⟩ ⟨.TODO, 0⟩ "t" (some ⟨.TODO, 0⟩) (Or.inr rfl)

/-- Claim C2: when a task-update mutation fails, the cache after the
`onError` handler is the literal snapshot captured by `onMutate` before the
optimistic write (first conjunct: the rollback value IS the stored
`previousTasks` snapshot), and that snapshot equals the pre-move task list
exactly (second conjunct); the board error path recomputes the columns from
the unchanged `tasks` prop, yielding the same column state the organising
effect produced before the move (third conjunct). -/
theorem failed_move_rollback (ts : List Task) (tid : String) (u : TaskUpdates) :
    failedUpdateCache (some ts) tid u = (useUpdateTask_onMutate (some ts) tid u).2 ∧
    failedUpdateCache (some ts) tid u = some ts ∧
    revertColumns ts = organizeColumns ts :=
  ⟨rfl, rfl, rfl⟩

/-- Claim C7 (code bug): the retry predicates suppress retries only when the
error value carries a `status` property of 401/403, but the `Error` values
thrown by the fetch helpers carry no `status` property at all — so an
authorization-denied read failure IS retried (failure counts 0, 1, 2 all
return `true`) and an authorization-denied mutation failure is retried once,
contradicting the `Don't retry on 401/403 errors` comment in
`query-provider.tsx` and the spec. -/
theorem retry_unauthorized_failures :
    (fetchHelperError (some "Unauthorized") 401 "Unauthorized").status = none ∧
    queriesRetry 0 (fetchHelperError (some "Unauthorized") 401 "Unauthorized") = true ∧
    queriesRetry 1 (fetchHelperError (some "Unauthorized") 401 "Unauthorized") = true ∧
    queriesRetry 2 (fetchHelperError (some "Unauthorized") 401 "Unauthorized") = true ∧
    mutationsRetry 0 (fetchHelperError (some "Unauthorized") 401 "Unauthorized") = true := by
  decide

/-- Claim C9: the optimistic apply step maps the cached list pointwise —
the task whose id equals the target id is replaced by the spread-merge of the
old task and the updates, every other task is returned unchanged (same
length, same element at every other index), and an absent cache becomes the
empty list. -/
theorem onMutate_optimistic_frame (old : List Task) (tid : String) (u : TaskUpdates) :
    (useUpdateTask_onMutate none tid u).1 = some [] ∧
    (useUpdateTask_onMutate (some old) tid u).1 =
      some (old.map (fun t => if t.id == tid then spreadUpdates t u else t)) ∧
    (old.map (fun t => if t.id == tid then spreadUpdates t u else t)).length = old.length ∧
    ∀ (k : Nat) (hk : k < old.length),
      (old.map (fun t => if t.id == tid then spreadUpdates t u else t)).get
          ⟨k, by simpa using hk⟩ =
        (if (old.get ⟨k, hk⟩).id = tid then spreadUpdates (old.get ⟨k, hk⟩) u
         else old.get ⟨k, hk⟩) := by
  refine ⟨rfl, rfl, by simp, fun k hk => ?_⟩
  rw [List.get_map]
  by_cases h : (old.get ⟨k, hk⟩).id = tid <;> simp [h]

theorem onMutate_optimistic_frame_witness :
    (useUpdateTask_onMutate
        (some [{ id := "a", title := "A", status := .TODO, priority := .LOW, order := 0,
                 projectId := "p", userId := "u" },
               { id := "b", title := "B", status := .TODO, priority := .LOW, order := 1,
                 projectId := "p", userId := "u" }]) "b"
        { status := some .DONE }).1 =
      some [{ id := "a", title := "A", status := .TODO, priority := .LOW, order := 0,
              projectId := "p", userId := "u" },
            { id := "b", title := "B", status := .DONE, priority := .LOW, order := 1,
              projectId := "p", userId := "u" }] := by
  have h := onMutate_optimistic_frame
    [{ id := "a", title := "A", status := .TODO, priority := .LOW, order := 0,
       projectId := "p", userId := "u" },
     { id := "b", title := "B", status := .TODO, priority := .LOW, order := 1,
       projectId := "p", userId := "u" }] "b" { status := some .DONE }
  rw [h.2.1]
  decide

/-- Claim C4 counterexample: the claim is false for the bulk endpoint.  A
store holding one DONE task with completion timestamp 5, bulk-updated to
status TODO, keeps `completedAt = some 5` — the transition out of DONE does
not clear the timestamp to null. -/
theorem bulk_out_of_done_keeps_timestamp :
    putTasksBulk 100
        [{ id := "t1", title := "T", status := .DONE, priority := .MEDIUM, order := 0,
           projectId := "p1", userId := "u1", completedAt := some 5 }]
        "u1" [⟨"t1", .TODO, 3⟩] =
      [{ id := "t1", title := "T", status := .TODO, priority := .MEDIUM, order := 3,
         projectId := "p1", userId := "u1", completedAt := some 5, updatedAt := 100 }] := by
  decide

/-- Claim C4 as amended: on the single-task update endpoint a status
transition into DONE stamps the completion timestamp and a status other than
DONE clears it to null; on the bulk endpoint a DONE status stamps the
timestamp (even when the task was already DONE) but a non-DONE status leaves
the stored timestamp untouched — the bulk path never clears it. -/
theorem completedAt_transition_policy (now : Nat) (t : Task) (v : UpdateTaskPayload)
    (s : TaskStatus) (hs : v.status = some s) (u : BulkTaskUpdate) :
    (s = .DONE → t.status ≠ .DONE → (applyTaskUpdate now t v).completedAt = some now) ∧
    (s ≠ .DONE → (applyTaskUpdate now t v).completedAt = none) ∧
    (u.status = .DONE → (bulkUpdateData now t u).completedAt = some now) ∧
    (u.status ≠ .DONE → (bulkUpdateData now t u).completedAt = t.completedAt) := by
  refine ⟨fun h1 h2 => ?_, fun h1 => ?_, fun h1 => ?_, fun h1 => ?_⟩
  · simp [applyTaskUpdate, hs, h1, h2]
  · simp [applyTaskUpdate, hs, h1]
  · simp [bulkUpdateData, h1]
  · simp [bulkUpdateData, h1]

theorem completedAt_transition_policy_witness :
    (applyTaskUpdate 100
        { id := "t1", title := "T", status := .REVIEW, priority := .LOW, order := 0,
          projectId := "p1", userId := "u1" }
        { status := some .DONE }).completedAt = some 100 :=
  (completedAt_transition_policy 100
      { id := "t1", title := "T", status := .REVIEW, priority := .LOW, order := 0,
        projectId := "p1", userId := "u1" }
      { status := some .DONE } .DONE rfl ⟨"t1", .DONE, 0⟩).1 rfl (by decide)

/-- Claim C8: the analytics aggregator guards both divisions — the completion
rate of the empty task list is 0 and the average completion time is 0, the
completion rate of a non-empty list is the completed/total ratio (as a
percentage), and whenever no task has status DONE together with a completion
timestamp the average completion time is 0 — no division by zero occurs. -/
theorem analytics_guarded (now : Nat) (tasks : List Task) :
    (analyticsOf now []).completionRate = 0 ∧
    (analyticsOf now []).avgCompletionTime = 0 ∧
    (tasks.length > 0 →
      (analyticsOf now tasks).completionRate =
        ((tasks.filter (fun t => t.status == .DONE)).length : ℚ) / (tasks.length : ℚ) * 100) ∧
    (completedWithDates tasks = [] → (analyticsOf now tasks).avgCompletionTime = 0) := by
  refine ⟨rfl, rfl, fun hpos => ?_, fun hempty => ?_⟩
  · simp [analyticsOf, hpos]
  · simp [analyticsOf, hempty]

theorem analytics_guarded_witness :
    (analyticsOf 0
        [{ id := "a", title := "A", status := .DONE, priority := .LOW, order := 0,
           projectId := "p", userId := "u" }]).completionRate = 100 := by
  have h := (analytics_guarded 0
    [{ id := "a", title := "A", status := .DONE, priority := .LOW, order := 0,
       projectId := "p", userId := "u" }]).2.2.1 (by decide)
  rw [h]
  norm_num

/-- Claim C10: a task-list read with no page and no limit parameter defaults
to page 1 and limit 50: the returned page holds at most 50 tasks, and the
pagination block reports page 1, limit 50, the filtered total, and
`totalPages` equal to the ceiling of total/50 (characterised by
`total ≤ 50 * totalPages < total + 50`, and written as `(total + 49) / 50`). -/
theorem default_pagination (db : List Task) (uid : String) (p : TaskListParams)
    (hpage : p.page = none) (hlimit : p.limit = none) :
    (getTasksEndpoint db (some uid) p).tasks.length ≤ 50 ∧
    ∃ pg, (getTasksEndpoint db (some uid) p).pagination = some pg ∧
      pg.page = 1 ∧ pg.limit = 50 ∧
      pg.total = (db.filter (taskMatchesWhere uid p)).length ∧
      pg.totalPages = (pg.total + 49) / 50 ∧
      pg.total ≤ 50 * pg.totalPages ∧ 50 * pg.totalPages < pg.total + 50 := by
  simp only [getTasksEndpoint, hpage, hlimit, Option.getD_none]
  refine ⟨List.length_take_le _ _, _, rfl, rfl, rfl, rfl, ?_, ?_, ?_⟩ <;>
    · dsimp only
      omega

theorem default_pagination_witness :
    (getTasksEndpoint
        [{ id := "a", title := "A", status := .TODO, priority := .LOW, order := 0,
           projectId := "p", userId := "u" }]
        (some "u") {}).tasks.length ≤ 50 := by
  have h := default_pagination
    [{ id := "a", title := "A", status := .TODO, priority := .LOW, order := 0,
       projectId := "p", userId := "u" }] "u" {} rfl rfl
  exact h.1

/-- Claim C6: a create request with an empty title is rejected with a
validation error whose first reported issue is on the title field, with
message `Title is required`, surfaced as a 400 response; a title of exactly
200 characters passes title validation (any remaining validation error is on
a later field); a title of 201 characters is rejected on the title field;
and in every validation failure the response carries the first offending
field's message. -/
theorem create_title_validation (now : Nat) (newId : String) (db : List Task)
    (projects : List Project) (uid : String) (b : CreateTaskBody) :
    (b.title.length = 0 →
      validateCreateTask b = Except.error ("title", "Title is required") ∧
      (postTaskEndpoint now newId db projects (some uid) b).1.status = 400 ∧
      (postTaskEndpoint now newId db projects (some uid) b).1.error =
        some "Validation error" ∧
      (postTaskEndpoint now newId db projects (some uid) b).1.message =
        some "Title is required") ∧
    (b.title.length = 200 →
      ∀ f m, validateCreateTask b = Except.error (f, m) → f ≠ "title") ∧
    (b.title.length = 201 →
      validateCreateTask b =
        Except.error ("title", "String must contain at most 200 character(s)") ∧
      (postTaskEndpoint now newId db projects (some uid) b).1.status = 400 ∧
      (postTaskEndpoint now newId db projects (some uid) b).1.message =
        some "String must contain at most 200 character(s)") ∧
    (∀ f m, validateCreateTask b = Except.error (f, m) →
      (postTaskEndpoint now newId db projects (some uid) b).1.status = 400 ∧
      (postTaskEndpoint now newId db projects (some uid) b).1.message = some m) := by
  refine ⟨fun h0 => ?_, fun h200 => ?_, fun h201 => ?_, fun f m hfm => ?_⟩
  · have hv : validateCreateTask b = Except.error ("title", "Title is required") := by
      simp [validateCreateTask, h0]
    exact ⟨hv, by simp [postTaskEndpoint, hv], by simp [postTaskEndpoint, hv],
      by simp [postTaskEndpoint, hv]⟩
  · intro f m hfm hf
    subst hf
    simp only [validateCreateTask, h200] at hfm
    norm_num at hfm
    rcases hb : b.priority with _ | p <;> rw [hb] at hfm <;> dsimp only at hfm
    · injection hfm with h
      have h' : "priority" = "title" := congrArg Prod.fst h
      exact absurd h' (by decide)
    · split at hfm
      · injection hfm with h
        have h' : "projectId" = "title" := congrArg Prod.fst h
        exact absurd h' (by decide)
      · rcases he : b.estimatedHours with _ | q <;> rw [he] at hfm <;> dsimp only at hfm
        · injection hfm
        · split at hfm
          · injection hfm with h
            have h' : "estimatedHours" = "title" := congrArg Prod.fst h
            exact absurd h' (by decide)
          · injection hfm
  · have hv : validateCreateTask b =
        Except.error ("title", "String must contain at most 200 character(s)") := by
      simp [validateCreateTask, h201]
    exact ⟨hv, by simp [postTaskEndpoint, hv], by simp [postTaskEndpoint, hv]⟩
  · exact ⟨by simp [postTaskEndpoint, hfm], by simp [postTaskEndpoint, hfm]⟩

theorem create_title_validation_witness :
    validateCreateTask { title := "", projectId := "p1", priority := some .LOW } =
      Except.error ("title", "Title is required") :=
  ((create_title_validation 0 "n" [] [] "u"
      { title := "", projectId := "p1", priority := some .LOW }).1 rfl).1

/-- Claim C5: for an authenticated caller, a single-task update, a
single-task delete, and a single-project read against a resource that exists
but belongs to a different user produce exactly the same response as against
a resource that does not exist at all — a 404 not-found outcome — and leave
the store unchanged, so a non-owner cannot distinguish an existing resource
from an absent one. -/
theorem ownership_not_found_indistinguishable
    (now : Nat) (db1 db2 : List Task) (ps1 ps2 : List Project)
    (uid tid pid : String) (v : UpdateTaskPayload)
    (h1 : ∀ t ∈ db1, t.id = tid → t.userId ≠ uid)
    (h2 : ∀ t ∈ db2, t.id ≠ tid)
    (hp1 : ∀ q ∈ ps1, q.id = pid → q.userId ≠ uid)
    (hp2 : ∀ q ∈ ps2, q.id ≠ pid) :
    (putTaskEndpoint now db1 ps1 (some uid) tid v).1 =
      (putTaskEndpoint now db2 ps2 (some uid) tid v).1 ∧
    (putTaskEndpoint now db1 ps1 (some uid) tid v).1.status = 404 ∧
    (putTaskEndpoint now db1 ps1 (some uid) tid v).2 = db1 ∧
    (deleteTaskEndpoint db1 (some uid) tid).1 = (deleteTaskEndpoint db2 (some uid) tid).1 ∧
    (deleteTaskEndpoint db1 (some uid) tid).1.status = 404 ∧
    (deleteTaskEndpoint db1 (some uid) tid).2 = db1 ∧
    getProjectEndpoint ps1 (some uid) pid = getProjectEndpoint ps2 (some uid) pid ∧
    (getProjectEndpoint ps1 (some uid) pid).status = 404 := by
  have f1 : findTaskOwned db1 tid uid = none := by
    rw [findTaskOwned, List.find?_eq_none]
    intro t ht
    simp only [Bool.and_eq_true, beq_iff_eq, not_and]
    exact fun hid => h1 t ht hid
  have f2 : findTaskOwned db2 tid uid = none := by
    rw [findTaskOwned, List.find?_eq_none]
    intro t ht
    simp only [Bool.and_eq_true, beq_iff_eq, not_and]
    exact fun hid => absurd hid (h2 t ht)
  have g1 : findProjectOwned ps1 pid uid = none := by
    rw [findProjectOwned, List.find?_eq_none]
    intro q hq
    simp only [Bool.and_eq_true, beq_iff_eq, not_and]
    exact fun hid => hp1 q hq hid
  have g2 : findProjectOwned ps2 pid uid = none := by
    rw [findProjectOwned, List.find?_eq_none]
    intro q hq
    simp only [Bool.and_eq_true, beq_iff_eq, not_and]
    exact fun hid => absurd hid (hp2 q hq)
  refine ⟨?_, ?_, ?_, ?_, ?_, ?_, ?_, ?_⟩ <;>
    simp [putTaskEndpoint, deleteTaskEndpoint, getProjectEndpoint, f1, f2, g1, g2]

theorem ownership_not_found_witness :
    (putTaskEndpoint 0
        [{ id := "t1", title := "T", status := .TODO, priority := .LOW, order := 0,
           projectId := "p1", userId := "other" }] [] (some "me") "t1" {}).1.status = 404 := by
  have h := ownership_not_found_indistinguishable 0
    [{ id := "t1", title := "T", status := .TODO, priority := .LOW, order := 0,
       projectId := "p1", userId := "other" }] []
    [{ id := "p1", name := "P", userId := "other" }] []
    "me" "t1" "p1" {} (by decide) (by decide) (by decide) (by decide)
  exact h.2.1

theorem get_congr (xs ys : List Task) (k : Nat) (hxy : xs = ys) (hk : k < xs.length)
    (hk2 : k < ys.length) : xs.get ⟨k, hk⟩ = ys.get ⟨k, hk2⟩ := by
  subst hxy
  rfl

theorem handleDragEnd_eq_cross (b : Board) (s d : TaskStatus) (i j : Nat) (tid : String)
    (u : Task) (hsd : s ≠ d)
    (hfind : (b.lane s).find? (fun t => t.id == tid) = some u) :
    handleDragEnd b ⟨⟨s, i⟩, some ⟨d, j⟩, tid⟩ =
      (b.setLane s (spliceRemove (b.lane s) i)).setLane d
        (renumberFrom 0 (spliceInsert { u with status := d, order := j } (b.lane d) j)) := by
  have hcond : ¬(d = s ∧ j = i) := fun h => hsd h.1.symm
  simp only [handleDragEnd, hfind, if_neg hcond, if_neg (fun h => hsd h)]

/-- Claim C1: for a drag of the task at index `i` of the source lane to a
different lane at index `j` (both indices valid), the reconciliation removes
the task from the source lane at index `i` — the remaining source-lane tasks
keep their existing (un-renumbered) order values, being the very same task
values — inserts a copy with status set to the destination lane id and order
set to `j` into the destination lane at index `j`, renumbers every task of
the destination lane sequentially `0..n-1` by final position (so the moved
task, sitting at position `j`, has the dragged id, the destination status and
order `j`), and leaves the other lanes untouched. -/
theorem dragEnd_cross_lane (b : Board) (s d : TaskStatus) (i j : Nat) (tid : String)
    (hsd : s ≠ d)
    (hi : i < (b.lane s).length)
    (hj : j ≤ (b.lane d).length)
    (hfind : (b.lane s).find? (fun t => t.id == tid) = some ((b.lane s).get ⟨i, hi⟩)) :
    ((handleDragEnd b ⟨⟨s, i⟩, some ⟨d, j⟩, tid⟩).lane s = spliceRemove (b.lane s) i) ∧
    ((handleDragEnd b ⟨⟨s, i⟩, some ⟨d, j⟩, tid⟩).lane d =
      renumberFrom 0
        (spliceInsert { (b.lane s).get ⟨i, hi⟩ with status := d, order := j } (b.lane d) j)) ∧
    (∀ l, l ≠ s → l ≠ d → (handleDragEnd b ⟨⟨s, i⟩, some ⟨d, j⟩, tid⟩).lane l = b.lane l) ∧
    (∃ hjl : j < ((handleDragEnd b ⟨⟨s, i⟩, some ⟨d, j⟩, tid⟩).lane d).length,
      ((((handleDragEnd b ⟨⟨s, i⟩, some ⟨d, j⟩, tid⟩).lane d).get ⟨j, hjl⟩).id = tid) ∧
      ((((handleDragEnd b ⟨⟨s, i⟩, some ⟨d, j⟩, tid⟩).lane d).get ⟨j, hjl⟩).status = d) ∧
      ((((handleDragEnd b ⟨⟨s, i⟩, some ⟨d, j⟩, tid⟩).lane d).get ⟨j, hjl⟩).order = j)) ∧
    (∀ (k : Nat) (hk : k < ((handleDragEnd b ⟨⟨s, i⟩, some ⟨d, j⟩, tid⟩).lane d).length),
      (((handleDragEnd b ⟨⟨s, i⟩, some ⟨d, j⟩, tid⟩).lane d).get ⟨k, hk⟩).order = k) := by
  have hrw := handleDragEnd_eq_cross b s d i j tid ((b.lane s).get ⟨i, hi⟩) hsd hfind
  have hid : ((b.lane s).get ⟨i, hi⟩).id = tid := by
    have := List.find?_some hfind
    simpa using this
  have hlaneS :
      (handleDragEnd b ⟨⟨s, i⟩, some ⟨d, j⟩, tid⟩).lane s = spliceRemove (b.lane s) i := by
    rw [hrw, lane_setLane_ne _ _ _ _ hsd, lane_setLane_same]
  have hlaneD :
      (handleDragEnd b ⟨⟨s, i⟩, some ⟨d, j⟩, tid⟩).lane d =
        renumberFrom 0
          (spliceInsert { (b.lane s).get ⟨i, hi⟩ with status := d, order := j }
            (b.lane d) j) := by
    rw [hrw, lane_setLane_same]
  have hjlen : j < (spliceInsert { (b.lane s).get ⟨i, hi⟩ with status := d, order := j }
      (b.lane d) j).length := by
    rw [spliceInsert_length]; omega
  have hjl2 : j < (renumberFrom 0
      (spliceInsert { (b.lane s).get ⟨i, hi⟩ with status := d, order := j }
        (b.lane d) j)).length := by
    rw [renumberFrom_length]; exact hjlen
  refine ⟨hlaneS, hlaneD, fun l hls hld => ?_, ?_, fun k hk => ?_⟩
  · rw [hrw, lane_setLane_ne _ _ _ _ hld, lane_setLane_ne _ _ _ _ hls]
  · have hjl : j < ((handleDragEnd b ⟨⟨s, i⟩, some ⟨d, j⟩, tid⟩).lane d).length := by
      rw [hlaneD]; exact hjl2
    have hcongr := get_congr _ _ j hlaneD hjl hjl2
    refine ⟨hjl, ?_, ?_, ?_⟩
    · rw [hcongr, renumberFrom_get_id 0 _ j hjlen hjl2, spliceInsert_get_self _ _ _ hj hjlen]
      exact hid
    · rw [hcongr, renumberFrom_get_status 0 _ j hjlen hjl2,
        spliceInsert_get_self _ _ _ hj hjlen]
    · rw [hcongr, renumberFrom_get_order]
      omega
  · have hk2 : k < (renumberFrom 0
        (spliceInsert { (b.lane s).get ⟨i, hi⟩ with status := d, order := j }
          (b.lane d) j)).length := by
      rw [← hlaneD]; exact hk
    rw [get_congr _ _ k hlaneD hk hk2, renumberFrom_get_order]
    omega

theorem dragEnd_cross_lane_witness :
    (handleDragEnd
        ⟨[{ id := "1", title := "a", status := .TODO, priority := .LOW, order := 0,
            projectId := "p", userId := "u" },
          { id := "2", title := "b", status := .TODO, priority := .LOW, order := 1,
            projectId := "p", userId := "u" }], [], [], []⟩
        ⟨⟨.TODO, 1⟩, some ⟨.DONE, 0⟩, "2"⟩).lane .DONE =
      [{ id := "2", title := "b", status := .DONE, priority := .LOW, order := 0,
         projectId := "p", userId := "u" }] := by
  have h := dragEnd_cross_lane
    ⟨[{ id := "1", title := "a", status := .TODO, priority := .LOW, order := 0,
        projectId := "p", userId := "u" },
      { id := "2", title := "b", status := .TODO, priority := .LOW, order := 1,
        projectId := "p", userId := "u" }], [], [], []⟩
    .TODO .DONE 1 0 "2" (by decide) (by decide) (by decide) (by decide)
  rw [h.2.1]
  decide

end TaskMgr
